import Mathlib

/-!
Verification development for the nunet-py job adapter
(`src/nunet/base.py`, `src/nunet/models.py`).

The Python source is shallowly embedded: pure computations become Lean
functions, the status-channel generator `NuNetAdapter.job` becomes an
explicit function from the scripted inbound message sequence and the
consumer's behaviour to the trace of observable channel effects, and
fallible code returns `Except`/`Option`.
-/

namespace NuNet

/-! ## Status-channel messages (`models.Action`, `base.job`, `base.terminate`) -/

/-- The payload carried by an inbound status message.  In
`models.Action` the `message` field has type `Union[str, dict, None]`,
so the payload may be text, structured data, or null. -/
inductive Payload where
  | str (s : String)
  | obj (entries : List (String × String))
  | null
deriving DecidableEq, Repr

/-- Embeds `models.Action`: the model for items returned from the DMS
websocket, with fields `action : str`, `message : Union[str, dict, None] = None`,
`stdout : Optional[str] = None`. -/
structure Action where
  action : String
  message : Payload := Payload.null
  stdout : Option String := none
deriving DecidableEq, Repr

/-- An inbound websocket message as the generator sees it: either it
parses into an `Action` via `Action.model_validate_json`, or it is
malformed and parsing raises. -/
inductive InMsg where
  | good (a : Action)
  | bad
deriving DecidableEq, Repr

/-- The payload chosen for the yielded pair in `base.job`:
`parsed.stdout if parsed.stdout is not None else parsed.message`. -/
def payloadOf (a : Action) : Payload :=
  match a.stdout with
  | some s => Payload.str s
  | none => a.message

/-- Embeds the inner object of the funding-confirmation JSON message
sent by `base.job` (keys as in the source). -/
structure FundInner where
  transaction_status : String
  transaction_type : String
  tx_hash : String
deriving DecidableEq, Repr

/-- Embeds the funding-confirmation JSON message sent by `base.job`. -/
structure FundMsg where
  message : FundInner
  action : String
deriving DecidableEq, Repr

/-- The funding-confirmation message for a given transaction hash, as
built by `base.job` lines 219-230. -/
def fundMsg (txHash : String) : FundMsg :=
  { message :=
      { transaction_status := "success"
        transaction_type := "fund"
        tx_hash := txHash }
    action := "send-status" }

/-- Embeds the termination JSON message sent by `base.terminate`. -/
structure TermMsg where
  action : String
deriving DecidableEq, Repr

/-- The termination message `{action: "terminate-job"}` of `base.terminate`. -/
def termMsg : TermMsg := { action := "terminate-job" }

/-- Observable effects of one run of the `job` generator, in order:
the funding message sent on the streaming connection, the pairs yielded
to the consumer, and the termination message sent (on the fresh
connection opened by `terminate`). -/
inductive Ev where
  | sendFund (m : FundMsg)
  | yielded (y : String × Payload)
  | sendTerminate (m : TermMsg)
deriving DecidableEq, Repr

/-- Errors a run of the generator can raise to the caller. -/
inductive JobError where
  | fundSendError
  | parseError
  | terminateError
deriving DecidableEq, Repr

/-- How one run of the generator ends from the caller's point of view:
a normal return (stream end, or `job-completed` received), a normal
close after the consumer stopped iterating early, or an exception. -/
inductive Outcome where
  | returned
  | closed
  | raised (e : JobError)
deriving DecidableEq, Repr

/-- How the `for message in websocket` loop of `base.job` exits. -/
inductive LoopEnd where
  | finished
  | stopped
  | parseFailed
deriving DecidableEq, Repr

/-- Embeds the streaming loop of `base.job` (lines 231-237).
`msgs` is the scripted sequence of inbound messages the websocket will
deliver before closing.  `limit` is the consumer's behaviour:
`some k` (with `k ≥ 1`) means the consumer stops iterating after
consuming `k` yielded elements, so the generator is closed at its
`k`-th suspended `yield` (Python delivers `GeneratorExit` there);
`none` means it consumes until the generator ends on its own.
Returns the list of yielded pairs and the way the loop exited:
each message is parsed (a malformed one raises), the pair
`(action, stdout-or-message)` is yielded, and the loop returns after
yielding a message whose action is `"job-completed"`. -/
def jobLoop : List InMsg → Option Nat → List (String × Payload) × LoopEnd
  | [], _ => ([], LoopEnd.finished)
  | InMsg.bad :: _, _ => ([], LoopEnd.parseFailed)
  | InMsg.good a :: rest, limit =>
      let y := (a.action, payloadOf a)
      if limit = some 1 then
        ([y], LoopEnd.stopped)
      else if a.action = "job-completed" then
        ([y], LoopEnd.finished)
      else
        let r := jobLoop rest (limit.map Nat.pred)
        (y :: r.1, r.2)

/-- The full observable result of one run of the generator. -/
structure RunResult where
  trace : List Ev
  outcome : Outcome
deriving DecidableEq, Repr

/-- Embeds one (started) run of the generator `base.job` (lines 205-250).

`fundOk` says whether sending the funding-confirmation message on the
streaming connection succeeds; `termOk` says whether `terminate` (which
opens a fresh connection to the same endpoint and sends
`{action: "terminate-job"}`) succeeds.

Control flow mirrors the source: inside `with connect(...)`, a
`try:`-block sends the funding message and runs the streaming loop, and
its `finally:` calls `self.terminate()` on every exit path — normal
return, `GeneratorExit` from an early-stopping consumer, or an
exception from sending or parsing.  Per Python semantics, an exception
raised by `terminate` inside `finally` propagates to the caller and
replaces the primary exception (the primary is only attached as
context). -/
def runJob (txHash : String) (fundOk : Bool) (inbound : List InMsg)
    (limit : Option Nat) (termOk : Bool) : RunResult :=
  if fundOk then
    let r := jobLoop inbound limit
    let base := Ev.sendFund (fundMsg txHash) :: r.1.map Ev.yielded
    if termOk then
      { trace := base ++ [Ev.sendTerminate termMsg]
        outcome :=
          match r.2 with
          | LoopEnd.finished => Outcome.returned
          | LoopEnd.stopped => Outcome.closed
          | LoopEnd.parseFailed => Outcome.raised JobError.parseError }
    else
      { trace := base
        outcome := Outcome.raised JobError.terminateError }
  else
    if termOk then
      { trace := [Ev.sendTerminate termMsg]
        outcome := Outcome.raised JobError.fundSendError }
    else
      { trace := []
        outcome := Outcome.raised JobError.terminateError }

/-- Is this event a termination-message send? -/
def isTermEv : Ev → Bool
  | Ev.sendTerminate _ => true
  | _ => false

/-- Is this event a funding-message send? -/
def isFundEv : Ev → Bool
  | Ev.sendFund _ => true
  | _ => false

/-- The number of termination messages sent during a run. -/
def terminateCount (r : RunResult) : Nat :=
  (r.trace.filter isTermEv).length

/-- Projects a yielded pair out of an event. -/
def yieldProj : Ev → Option (String × Payload)
  | Ev.yielded y => some y
  | _ => none

/-- The pairs yielded to the consumer during a run, in order. -/
def tracedYields (r : RunResult) : List (String × Payload) :=
  r.trace.filterMap yieldProj

theorem filter_term_map_yielded (ys : List (String × Payload)) :
    (ys.map Ev.yielded).filter isTermEv = [] := by
  induction ys with
  | nil => rfl
  | cons y ys ih => simp [isTermEv, ih]

theorem filter_fund_map_yielded (ys : List (String × Payload)) :
    (ys.map Ev.yielded).filter isFundEv = [] := by
  induction ys with
  | nil => rfl
  | cons y ys ih => simp [isFundEv, ih]

theorem filterMap_yieldProj (ys : List (String × Payload)) :
    (ys.map Ev.yielded).filterMap yieldProj = ys := by
  induction ys with
  | nil => rfl
  | cons y ys ih => simp [yieldProj, ih]

theorem filterMap_yieldProj_comp {α : Type} (f : α → String × Payload) (l : List α) :
    l.filterMap (yieldProj ∘ Ev.yielded ∘ f) = l.map f := by
  induction l with
  | nil => rfl
  | cons x l ih => simp [yieldProj, Function.comp, ih]

/-- Running the streaming loop over a prefix of well-formed messages,
none of which completes the job, yields the corresponding pairs and
then behaves as the loop on the remaining messages. -/
theorem jobLoop_append_good (pre : List Action) (rest : List InMsg)
    (hpre : ∀ b ∈ pre, b.action ≠ "job-completed") :
    jobLoop (pre.map InMsg.good ++ rest) none
      = ((pre.map fun b => (b.action, payloadOf b)) ++ (jobLoop rest none).1,
         (jobLoop rest none).2) := by
  induction pre with
  | nil => simp
  | cons b pre ih =>
      have hb : b.action ≠ "job-completed" := hpre b (by simp)
      have h' : ∀ c ∈ pre, c.action ≠ "job-completed" := by
        intro c hc
        exact hpre c (by simp [hc])
      simp [jobLoop, hb, ih h']

/-- C1: every run of the monitoring generator opened with a transaction
identifier sends exactly one termination message
`{action: "terminate-job"}` on a fresh connection to the status
endpoint, on every exit path — job completion, early consumer stop,
stream end, or an error while sending or streaming — before the
channel is released. -/
theorem C1_terminate_once_on_every_exit_path
    (txHash : String) (fundOk : Bool) (inbound : List InMsg) (limit : Option Nat) :
    (runJob txHash fundOk inbound limit true).trace.filter isTermEv
        = [Ev.sendTerminate { action := "terminate-job" }]
      ∧ terminateCount (runJob txHash fundOk inbound limit true) = 1 := by
  cases fundOk <;>
    simp [runJob, terminateCount, termMsg, List.filter_append,
      filter_term_map_yielded, isTermEv]

/-- C3: when a received event's action equals `"job-completed"`, the
generator yields that event as the final element and then returns:
the yielded sequence is exactly the received events in order, ending
with the completing event, and no later inbound message is consumed. -/
theorem C3_job_completed_ends_stream
    (txHash : String) (pre : List Action) (a : Action) (rest : List InMsg)
    (hpre : ∀ b ∈ pre, b.action ≠ "job-completed")
    (ha : a.action = "job-completed") :
    tracedYields (runJob txHash true (pre.map InMsg.good ++ InMsg.good a :: rest) none true)
        = pre.map (fun b => (b.action, payloadOf b)) ++ [(a.action, payloadOf a)]
      ∧ (runJob txHash true (pre.map InMsg.good ++ InMsg.good a :: rest) none true).outcome
        = Outcome.returned := by
  have hloop := jobLoop_append_good pre (InMsg.good a :: rest) hpre
  have hstep : jobLoop (InMsg.good a :: rest) none
      = ([(a.action, payloadOf a)], LoopEnd.finished) := by
    simp [jobLoop, ha]
  rw [hstep] at hloop
  constructor
  · simp [tracedYields, runJob, hloop, List.filterMap_append, filterMap_yieldProj, yieldProj,
      filterMap_yieldProj_comp, termMsg]
  · simp [runJob, hloop]

/-- C7 counterexample: with a malformed inbound message (the primary
error is a parse failure) and a failing termination send, the run
raises the termination error, not the primary parse error, and no
termination message is recorded — refuting the claim that the cleanup
itself does not raise and that the primary error is surfaced even if
sending the termination message fails. -/
theorem C7_counterexample_terminate_failure_masks_primary :
    (runJob "tx" true [InMsg.bad] none false).outcome
        = Outcome.raised JobError.terminateError
      ∧ (runJob "tx" true [InMsg.bad] none false).outcome
        ≠ Outcome.raised JobError.parseError
      ∧ terminateCount (runJob "tx" true [InMsg.bad] none false) = 0 := by
  refine ⟨rfl, ?_, rfl⟩
  decide

/-- C7 (amended): when an error occurs during streaming and the
termination send succeeds, the primary error is surfaced to the caller;
but the cleanup is unguarded — whenever sending the termination message
itself fails, that failure propagates and replaces the primary error. -/
theorem C7_amended_primary_error_surfaced_only_if_terminate_succeeds
    (txHash : String) (pre : List Action) (rest : List InMsg)
    (hpre : ∀ b ∈ pre, b.action ≠ "job-completed")
    (inbound2 : List InMsg) (limit : Option Nat) :
    (runJob txHash true (pre.map InMsg.good ++ InMsg.bad :: rest) none true).outcome
        = Outcome.raised JobError.parseError
      ∧ (runJob txHash true inbound2 limit false).outcome
        = Outcome.raised JobError.terminateError := by
  have hloop := jobLoop_append_good pre (InMsg.bad :: rest) hpre
  have hstep : jobLoop (InMsg.bad :: rest) none = ([], LoopEnd.parseFailed) := rfl
  rw [hstep] at hloop
  constructor
  · simp [runJob, hloop]
  · simp [runJob]

/-- C7 amended witness at concrete inputs. -/
theorem C7_amended_witness :
    (runJob "tx" true [InMsg.bad] none true).outcome
        = Outcome.raised JobError.parseError
      ∧ (runJob "tx" true [] none false).outcome
        = Outcome.raised JobError.terminateError :=
  C7_amended_primary_error_surfaced_only_if_terminate_succeeds
    "tx" [] [] (by simp) [] none

/-- C8: the first outbound message of every started run of the
generator — sent on the streaming connection before any event is
received or yielded — is the single funding-confirmation message
referencing exactly the given transaction identifier. -/
theorem C8_first_message_is_funding_confirmation
    (txHash : String) (inbound : List InMsg) (limit : Option Nat) (termOk : Bool) :
    (runJob txHash true inbound limit termOk).trace.head?
        = some (Ev.sendFund
            { message :=
                { transaction_status := "success"
                  transaction_type := "fund"
                  tx_hash := txHash }
              action := "send-status" })
      ∧ ((runJob txHash true inbound limit termOk).trace.filter isFundEv).length = 1 := by
  cases termOk <;>
    simp [runJob, fundMsg, List.filter_append, filter_fund_map_yielded, isFundEv, termMsg]

/-- C9: every element yielded to the consumer is the pair
`(action, payload)` where the payload is the message's `stdout` field
when present, and otherwise its `message` field — which may be text,
structured data, or null. -/
theorem C9_yield_prefers_stdout_over_message
    (txHash : String) (msgs : List Action)
    (h : ∀ a ∈ msgs, a.action ≠ "job-completed") :
    tracedYields (runJob txHash true (msgs.map InMsg.good) none true)
      = msgs.map fun a =>
          (a.action,
            match a.stdout with
            | some s => Payload.str s
            | none => a.message) := by
  have hloop := jobLoop_append_good msgs [] h
  simp only [List.append_nil] at hloop
  have hnil : jobLoop [] none = ([], LoopEnd.finished) := rfl
  rw [hnil] at hloop
  simp only [List.append_nil] at hloop
  simp [tracedYields, runJob, hloop, List.filterMap_append, filterMap_yieldProj, yieldProj,
    filterMap_yieldProj_comp, payloadOf, termMsg]

/-- C9 witness at concrete inputs covering all three payload shapes. -/
theorem C9_witness :
    tracedYields (runJob "tx" true
        ([Action.mk "job-log" Payload.null (some "hello"),
          Action.mk "job-status" (Payload.str "queued") none,
          Action.mk "job-extra" (Payload.obj [("k", "v")]) none].map InMsg.good) none true)
      = [("job-log", Payload.str "hello"), ("job-status", Payload.str "queued"),
         ("job-extra", Payload.obj [("k", "v")])] :=
  C9_yield_prefers_stdout_over_message "tx" _ (by decide)

/-- C3 witness at concrete inputs, with a trailing unconsumed message. -/
theorem C3_witness :
    tracedYields (runJob "tx" true
        ([Action.mk "job-log" Payload.null (some "x")].map InMsg.good
          ++ InMsg.good (Action.mk "job-completed" (Payload.str "done") none)
            :: [InMsg.good (Action.mk "late" Payload.null none)])
        none true)
        = [("job-log", Payload.str "x"), ("job-completed", Payload.str "done")]
      ∧ (runJob "tx" true
          ([Action.mk "job-log" Payload.null (some "x")].map InMsg.good
            ++ InMsg.good (Action.mk "job-completed" (Payload.str "done") none)
              :: [InMsg.good (Action.mk "late" Payload.null none)])
          none true).outcome = Outcome.returned :=
  C3_job_completed_ends_stream "tx" _ _ _ (by decide) rfl

/-! ## Models (`models.py`) and the payment builder (`base.py`) -/

/-- Embeds `pycardano.serialization.ByteString`: a wrapper around a
byte string (bytes as naturals below 256). -/
structure ByteStr where
  value : List Nat
deriving DecidableEq, Repr

/-- UTF-8 encoding of a single Unicode code point. -/
def utf8EncodeCharNat (n : Nat) : List Nat :=
  if n < 128 then [n]
  else if n < 2048 then [192 + n / 64, 128 + n % 64]
  else if n < 65536 then [224 + n / 4096, 128 + (n / 64) % 64, 128 + n % 64]
  else [240 + n / 262144, 128 + (n / 4096) % 64, 128 + (n / 64) % 64, 128 + n % 64]

/-- UTF-8 encoding of a string, as `bytes(v, encoding="utf-8")`. -/
def strUtf8 (s : String) : List Nat :=
  (s.data.map fun c => utf8EncodeCharNat c.toNat).flatten

/-- The possible runtime types of the value handed to the
`oracle_message` field validator of `models.JobConfig`: text, raw
bytes, an already-wrapped `ByteString`, or a value of any other type
(represented by its type name, as Python's `type(v)` renders it). -/
inductive OracleInput where
  | str (s : String)
  | bytes (b : List Nat)
  | byteString (b : ByteStr)
  | other (typeName : String)
deriving DecidableEq, Repr

/-- Embeds `models.JobConfig.validate_oracle` (lines 176-193): a
`mode="before"` field validator.  Raw bytes are wrapped unchanged,
text is UTF-8 encoded, a `ByteString` passes through, and any other
input type raises a `TypeError` naming the offending type (which the
schema layer surfaces as a validation error). -/
def validate_oracle : OracleInput → Except String ByteStr
  | OracleInput.str s => Except.ok (ByteStr.mk (strUtf8 s))
  | OracleInput.bytes b => Except.ok (ByteStr.mk b)
  | OracleInput.byteString b => Except.ok b
  | OracleInput.other t =>
      Except.error
        ("oracle message must be one of (str, bytes, pycardano.serialization.ByteString), instead found input of type "
          ++ t)

/-- Embeds `models.JobConfig` (lines 168-174): the peer configuration
assigned to the job.  `estimated_price` is a Python float, modelled as
an exact rational. -/
structure JobConfig where
  compute_provider_addr : String
  estimated_price : ℚ
  oracle_message : ByteStr
  signature : String
deriving DecidableEq, Repr

/-- Embeds the `pycardano.Value` built by `base.cost`: a coin amount
plus a multi-asset map from policy id to asset-name/amount pairs. -/
structure CardanoValue where
  coin : Int
  multi_asset : List (String × List (String × Int))
deriving DecidableEq, Repr

/-- Python `int(...)` truncation toward zero on an exact rational. -/
def intTrunc (q : ℚ) : Int :=
  if 0 ≤ q then ⌊q⌋ else ⌈q⌉

/-- Embeds `NuNetAdapter.cost` (lines 127-148): the payment is
`int(2000000 + 10**7 * estimated_price)` lovelace plus 10 units of
asset `6d4e5458` under the fixed policy id. -/
def cost (job_config : JobConfig) : CardanoValue :=
  { coin := intTrunc (2000000 + 10 ^ 7 * job_config.estimated_price)
    multi_asset :=
      [("8cafc9b387c9f6519cacdce48a8448c062670c810d8da4b232e56313",
        [("6d4e5458", 10)])] }

/-- Decodes one hexadecimal digit (0-9, a-f, A-F, by code point), as
`bytes.fromhex` does. -/
def hexDigit (c : Char) : Option Nat :=
  let n := c.toNat
  if 48 ≤ n ∧ n ≤ 57 then some (n - 48)
  else if 97 ≤ n ∧ n ≤ 102 then some (n - 87)
  else if 65 ≤ n ∧ n ≤ 70 then some (n - 55)
  else none

/-- Decodes pairs of hexadecimal digits into bytes (the core of
Python's `bytes.fromhex`; its permissiveness about ASCII spaces
between pairs is not exercised by this code and is omitted). -/
def hexPairs : List Char → Option (List Nat)
  | [] => some []
  | [_] => none
  | a :: b :: rest => do
      let hi ← hexDigit a
      let lo ← hexDigit b
      let tail ← hexPairs rest
      pure ((16 * hi + lo) :: tail)

/-- Embeds `bytes.fromhex` on a string. -/
def hexDecode (s : String) : Option (List Nat) :=
  hexPairs s.data

/-- Embeds `base.ContractDatum` (lines 37-51): the Plutus datum
submitted to the contract, with `CONSTR_ID = 0` and the dataclass
fields in declaration order. -/
structure ContractDatum where
  address : List Nat
  provider_address : List Nat
  signature : List Nat
  oracle_message : List Nat
  slot : Int
  timeout : Int
  ntx : Int
deriving DecidableEq, Repr

/-- The constructor tag of the datum (`CONSTR_ID = 0`). -/
def ContractDatum.CONSTR_ID : Nat := 0

/-- One field of a Plutus constructor payload. -/
inductive PlutusField where
  | bytes (b : List Nat)
  | int (i : Int)
deriving DecidableEq, Repr

/-- The wire shape of the datum as serialized by `PlutusData`: the
constructor tag `CONSTR_ID` together with the fields in dataclass
declaration order. -/
def ContractDatum.toConstr (d : ContractDatum) : Nat × List PlutusField :=
  (ContractDatum.CONSTR_ID,
   [PlutusField.bytes d.address, PlutusField.bytes d.provider_address,
    PlutusField.bytes d.signature, PlutusField.bytes d.oracle_message,
    PlutusField.int d.slot, PlutusField.int d.timeout, PlutusField.int d.ntx])

/-- Embeds the datum construction of `NuNetAdapter.pay` (lines 163-174).
`payerPaymentPart` is the payer's raw payment-key-hash bytes (the
source round-trips them through hex: `bytes.fromhex(str(payment_part))`);
`addressPaymentPart` abstracts the external bech32 decoding
`Address.decode(...).payment_part` to raw payment-key-hash bytes;
the signature is hex-decoded (`bytes.fromhex` raises on malformed hex,
hence the `Option`); the slot is the current chain slot plus 86400. -/
def payDatum (payerPaymentPart : List Nat) (addressPaymentPart : String → List Nat)
    (job_config : JobConfig) (last_block_slot : Int) : Option ContractDatum :=
  match hexDecode job_config.signature with
  | none => none
  | some sig =>
      some (ContractDatum.mk
        payerPaymentPart
        (addressPaymentPart job_config.compute_provider_addr)
        sig
        job_config.oracle_message.value
        (last_block_slot + 86400)
        10
        1)

/-- C2: for every `JobConfig` with a nonnegative estimated price, the
cost is exactly `2000000 + floor(10000000 * estimatedPrice)` minimal
units, together with exactly 10 units of the fixed secondary network
token attached to the same value. -/
theorem C2_cost_formula (cfg : JobConfig) (h : 0 ≤ cfg.estimated_price) :
    (cost cfg).coin = 2000000 + ⌊(10000000 : ℚ) * cfg.estimated_price⌋
      ∧ (cost cfg).multi_asset
        = [("8cafc9b387c9f6519cacdce48a8448c062670c810d8da4b232e56313",
            [("6d4e5458", 10)])] := by
  constructor
  · have hx : 0 ≤ (10 : ℚ) ^ 7 * cfg.estimated_price := by positivity
    have h0 : 0 ≤ (2000000 : ℚ) + 10 ^ 7 * cfg.estimated_price := by linarith
    simp only [cost, intTrunc, if_pos h0]
    rw [show ((2000000 : ℚ)) = ((2000000 : ℤ) : ℚ) by norm_num, Int.floor_int_add]
    norm_num
  · rfl

/-- C2 witness: at estimated price `1/2` the payment is exactly
`7000000` lovelace plus the fixed 10 secondary-token units. -/
theorem C2_witness :
    (0 : ℚ) ≤ 1 / 2
      ∧ (cost (JobConfig.mk "addrProv" (1 / 2) (ByteStr.mk []) "ab12")).coin = 7000000
      ∧ (cost (JobConfig.mk "addrProv" (1 / 2) (ByteStr.mk []) "ab12")).multi_asset
        = [("8cafc9b387c9f6519cacdce48a8448c062670c810d8da4b232e56313",
            [("6d4e5458", 10)])] := by
  have hc := C2_cost_formula (JobConfig.mk "addrProv" (1 / 2) (ByteStr.mk []) "ab12")
    (by norm_num)
  refine ⟨by norm_num, ?_, hc.2⟩
  rw [hc.1]
  rw [show ((10000000 : ℚ) * (1 / 2)) = ((5000000 : ℤ) : ℚ) by norm_num, Int.floor_intCast]
  norm_num

/-- C5: `pay` constructs a `ContractDatum` with constructor tag 0 and
the ordered fields `[payerAddress, providerAddress, signature,
oracleMessage, deadlineSlot, timeoutParam, transactionCount]`, where
the addresses are raw payment-key-hash bytes decoded from their
textual forms, the deadline slot is the current chain slot plus 86400,
the timeout parameter is 10, and the transaction count is 1. -/
theorem C5_pay_datum_shape
    (payerPaymentPart : List Nat) (addressPaymentPart : String → List Nat)
    (cfg : JobConfig) (last_block_slot : Int) (sig : List Nat)
    (hsig : hexDecode cfg.signature = some sig) :
    payDatum payerPaymentPart addressPaymentPart cfg last_block_slot
        = some (ContractDatum.mk payerPaymentPart
            (addressPaymentPart cfg.compute_provider_addr) sig
            cfg.oracle_message.value (last_block_slot + 86400) 10 1)
      ∧ (ContractDatum.mk payerPaymentPart
            (addressPaymentPart cfg.compute_provider_addr) sig
            cfg.oracle_message.value (last_block_slot + 86400) 10 1).toConstr
        = (0, [PlutusField.bytes payerPaymentPart,
               PlutusField.bytes (addressPaymentPart cfg.compute_provider_addr),
               PlutusField.bytes sig,
               PlutusField.bytes cfg.oracle_message.value,
               PlutusField.int (last_block_slot + 86400),
               PlutusField.int 10,
               PlutusField.int 1]) := by
  constructor
  · simp [payDatum, hsig]
  · rfl

/-- C5 witness at concrete inputs (`signature = "ab12"` decodes to the
bytes `[171, 18]`). -/
theorem C5_witness :
    payDatum [1, 2] (fun _ => [3, 4])
        (JobConfig.mk "addrProv" (1 / 2) (ByteStr.mk (strUtf8 "abc")) "ab12") 100
        = some (ContractDatum.mk [1, 2] [3, 4] [171, 18] (strUtf8 "abc") (100 + 86400) 10 1)
      ∧ (ContractDatum.mk [1, 2] [3, 4] [171, 18] (strUtf8 "abc") (100 + 86400) 10 1).toConstr
        = (0, [PlutusField.bytes [1, 2], PlutusField.bytes [3, 4],
               PlutusField.bytes [171, 18], PlutusField.bytes (strUtf8 "abc"),
               PlutusField.int (100 + 86400), PlutusField.int 10, PlutusField.int 1]) :=
  C5_pay_datum_shape [1, 2] (fun _ => [3, 4])
    (JobConfig.mk "addrProv" (1 / 2) (ByteStr.mk (strUtf8 "abc")) "ab12") 100 [171, 18]
    (by decide)

/-- C6: the oracle-message validator stores text input as its UTF-8
encoding, passes raw bytes (and already-wrapped byte strings) through
unchanged, and rejects any other input type with a type-mismatch
validation error naming the offending type. -/
theorem C6_oracle_message_normalization (s : String) (b : List Nat) (bs : ByteStr)
    (t : String) :
    validate_oracle (OracleInput.str s) = Except.ok (ByteStr.mk (strUtf8 s))
      ∧ validate_oracle (OracleInput.bytes b) = Except.ok (ByteStr.mk b)
      ∧ validate_oracle (OracleInput.byteString bs) = Except.ok bs
      ∧ validate_oracle (OracleInput.other t)
        = Except.error
            ("oracle message must be one of (str, bytes, pycardano.serialization.ByteString), instead found input of type "
              ++ t) :=
  ⟨rfl, rfl, rfl, rfl⟩

/-! ## JSON serialization of the request/response models -/

/-- A JSON value (the payloads exchanged with the DMS endpoints). -/
inductive Json where
  | null
  | bool (b : Bool)
  | int (i : Int)
  | num (q : ℚ)
  | str (s : String)
  | arr (elems : List Json)
  | obj (entries : List (String × Json))

/-- Embeds `models.ImageId`. -/
inductive ImageId where
  | TENSORFLOW_REGISTRY
  | PYTORCH_REGISTRY
  | ML_ON_CPU_REGISTRY
deriving DecidableEq, Repr

/-- The enum values of `models.ImageId`. -/
def ImageId.value : ImageId → String
  | ImageId.TENSORFLOW_REGISTRY =>
      "registry.gitlab.com/nunet/ml-on-gpu/ml-on-gpu-service/develop/tensorflow"
  | ImageId.PYTORCH_REGISTRY =>
      "registry.gitlab.com/nunet/ml-on-gpu/ml-on-gpu-service/develop/pytorch"
  | ImageId.ML_ON_CPU_REGISTRY =>
      "registry.gitlab.com/nunet/ml-on-gpu/ml-on-cpu-service/develop/ml-on-cpu"

/-- Looks an `ImageId` up by value. -/
def ImageId.ofValue (s : String) : Option ImageId :=
  if s = "registry.gitlab.com/nunet/ml-on-gpu/ml-on-gpu-service/develop/tensorflow" then
    some ImageId.TENSORFLOW_REGISTRY
  else if s = "registry.gitlab.com/nunet/ml-on-gpu/ml-on-gpu-service/develop/pytorch" then
    some ImageId.PYTORCH_REGISTRY
  else if s = "registry.gitlab.com/nunet/ml-on-gpu/ml-on-cpu-service/develop/ml-on-cpu" then
    some ImageId.ML_ON_CPU_REGISTRY
  else none

/-- Embeds `models.Blockchain` (currently only Cardano). -/
inductive Blockchain where
  | Cardano
deriving DecidableEq, Repr

/-- The enum values of `models.Blockchain`. -/
def Blockchain.value : Blockchain → String
  | Blockchain.Cardano => "Cardano"

/-- Looks a `Blockchain` up by value. -/
def Blockchain.ofValue (s : String) : Option Blockchain :=
  if s = "Cardano" then some Blockchain.Cardano else none

/-- Embeds `models.ServiceType`. -/
inductive ServiceType where
  | CPU
  | GPU
deriving DecidableEq, Repr

/-- The enum values of `models.ServiceType`. -/
def ServiceType.value : ServiceType → String
  | ServiceType.CPU => "ml-training-cpu"
  | ServiceType.GPU => "ml-training-gpu"

/-- Looks a `ServiceType` up by value. -/
def ServiceType.ofValue (s : String) : Option ServiceType :=
  if s = "ml-training-cpu" then some ServiceType.CPU
  else if s = "ml-training-gpu" then some ServiceType.GPU
  else none

/-- Embeds `models.MachineType`. -/
inductive MachineType where
  | CPU
  | GPU
deriving DecidableEq, Repr

/-- The enum values of `models.MachineType`. -/
def MachineType.value : MachineType → String
  | MachineType.CPU => "cpu"
  | MachineType.GPU => "gpu"

/-- Looks a `MachineType` up by value. -/
def MachineType.ofValue (s : String) : Option MachineType :=
  if s = "cpu" then some MachineType.CPU
  else if s = "gpu" then some MachineType.GPU
  else none

/-- Embeds `models.Complexity`. -/
inductive Complexity where
  | LOW
  | MODERATE
  | HIGH
deriving DecidableEq, Repr

/-- The enum values of `models.Complexity`. -/
def Complexity.value : Complexity → String
  | Complexity.LOW => "Low"
  | Complexity.MODERATE => "Moderate"
  | Complexity.HIGH => "High"

/-- Looks a `Complexity` up by value. -/
def Complexity.ofValue (s : String) : Option Complexity :=
  if s = "Low" then some Complexity.LOW
  else if s = "Moderate" then some Complexity.MODERATE
  else if s = "High" then some Complexity.HIGH
  else none

/-- Embeds `models.JobConstraints`. -/
structure JobConstraints where
  CPU : Int
  RAM : Int
  VRAM : Int
  power : Int
  complexity : Complexity
  time : Int
deriving DecidableEq, Repr

/-- Embeds `models.JobParams`. -/
structure JobParams where
  machine_type : MachineType
  image_id : ImageId
  model_url : String
  packages : List String
deriving DecidableEq, Repr

/-- Embeds `models.JobRequest`. -/
structure JobRequest where
  address_user : String
  max_ntx : Int
  blockchain : Blockchain := Blockchain.Cardano
  service_type : ServiceType
  params : JobParams
  constraints : JobConstraints
deriving DecidableEq, Repr

/-- Looks a key up in a JSON object's entries. -/
def jGet (entries : List (String × Json)) (k : String) : Option Json :=
  (entries.find? fun e => e.1 == k).map fun e => e.2

/-- Reads a required string field. -/
def getStr : Option Json → Except String String
  | some (Json.str s) => Except.ok s
  | _ => Except.error "expected a string"

/-- Reads a required integer field. -/
def getInt : Option Json → Except String Int
  | some (Json.int i) => Except.ok i
  | _ => Except.error "expected an integer"

/-- Reads a required number field (a float; an integer is accepted too). -/
def getNum : Option Json → Except String ℚ
  | some (Json.num q) => Except.ok q
  | some (Json.int i) => Except.ok (i : ℚ)
  | _ => Except.error "expected a number"

/-- Reads a required field. -/
def getField : Option Json → Except String Json
  | some j => Except.ok j
  | none => Except.error "missing field"

/-- Reads a required array field. -/
def getArr : Option Json → Except String (List Json)
  | some (Json.arr es) => Except.ok es
  | _ => Except.error "expected an array"

/-- Reads a list of strings. -/
def getStrList : List Json → Except String (List String)
  | [] => Except.ok []
  | Json.str s :: rest =>
      match getStrList rest with
      | Except.ok t => Except.ok (s :: t)
      | Except.error e => Except.error e
  | _ => Except.error "expected a string"

/-- Reads a list of byte values (a nonnegative integer per byte). -/
def getBytes : List Json → Except String (List Nat)
  | [] => Except.ok []
  | Json.int i :: rest =>
      match i.toNat' with
      | none => Except.error "expected a byte"
      | some n =>
          match getBytes rest with
          | Except.ok t => Except.ok (n :: t)
          | Except.error e => Except.error e
  | _ => Except.error "expected a byte"

/-- Reads an enum field encoded by its value. -/
def getEnum {α : Type} (ofValue : String → Option α) (j : Option Json) :
    Except String α :=
  match getStr j with
  | Except.error e => Except.error e
  | Except.ok s =>
      match ofValue s with
      | some v => Except.ok v
      | none => Except.error "invalid enum value"

/-- The Python type name a non-(str/bytes) JSON value arrives as, fed
to the oracle-message validator. -/
def jsonTypeName : Json → String
  | Json.null => "NoneType"
  | Json.bool _ => "bool"
  | Json.int _ => "int"
  | Json.num _ => "float"
  | Json.str _ => "str"
  | Json.arr _ => "list"
  | Json.obj _ => "dict"

/-- Modelled from the spec: the canonical serialization of `JobParams`
produced by the external schema-validation layer (`model_dump_json`),
with the declared fields in declaration order and enums by value. -/
def dumpJobParams (p : JobParams) : Json :=
  Json.obj [("machine_type", Json.str p.machine_type.value),
            ("image_id", Json.str p.image_id.value),
            ("model_url", Json.str p.model_url),
            ("packages", Json.arr (p.packages.map Json.str))]

/-- Modelled from the spec: the canonical serialization of
`JobConstraints` produced by the external schema-validation layer. -/
def dumpJobConstraints (c : JobConstraints) : Json :=
  Json.obj [("CPU", Json.int c.CPU),
            ("RAM", Json.int c.RAM),
            ("VRAM", Json.int c.VRAM),
            ("power", Json.int c.power),
            ("complexity", Json.str c.complexity.value),
            ("time", Json.int c.time)]

/-- Modelled from the spec: the canonical serialization of `JobRequest`
produced by the external schema-validation layer, used as the body of
the match request. -/
def dumpJobRequest (r : JobRequest) : Json :=
  Json.obj [("address_user", Json.str r.address_user),
            ("max_ntx", Json.int r.max_ntx),
            ("blockchain", Json.str r.blockchain.value),
            ("service_type", Json.str r.service_type.value),
            ("params", dumpJobParams r.params),
            ("constraints", dumpJobConstraints r.constraints)]

/-- Modelled from the spec: the canonical serialization of `JobConfig`
produced by the external schema-validation layer (the oracle-message
bytes are carried as an array of byte values). -/
def dumpJobConfig (c : JobConfig) : Json :=
  Json.obj [("compute_provider_addr", Json.str c.compute_provider_addr),
            ("estimated_price", Json.num c.estimated_price),
            ("oracle_message", Json.arr (c.oracle_message.value.map fun n => Json.int (Int.ofNat n))),
            ("signature", Json.str c.signature)]

/-- Modelled from the spec: parsing a JSON value into `JobParams` by the
external schema-validation layer. -/
def parseJobParams (j : Json) : Except String JobParams :=
  match j with
  | Json.obj es => do
      let mt ← getEnum MachineType.ofValue (jGet es "machine_type")
      let im ← getEnum ImageId.ofValue (jGet es "image_id")
      let mu ← getStr (jGet es "model_url")
      let pa ← getArr (jGet es "packages")
      let pk ← getStrList pa
      Except.ok (JobParams.mk mt im mu pk)
  | _ => Except.error "expected an object"

/-- Modelled from the spec: parsing a JSON value into `JobConstraints`
by the external schema-validation layer. -/
def parseJobConstraints (j : Json) : Except String JobConstraints :=
  match j with
  | Json.obj es => do
      let cpu ← getInt (jGet es "CPU")
      let ram ← getInt (jGet es "RAM")
      let vram ← getInt (jGet es "VRAM")
      let pow ← getInt (jGet es "power")
      let cx ← getEnum Complexity.ofValue (jGet es "complexity")
      let tm ← getInt (jGet es "time")
      Except.ok (JobConstraints.mk cpu ram vram pow cx tm)
  | _ => Except.error "expected an object"

/-- Modelled from the spec: parsing a JSON value into `JobRequest` by
the external schema-validation layer. -/
def parseJobRequest (j : Json) : Except String JobRequest :=
  match j with
  | Json.obj es => do
      let au ← getStr (jGet es "address_user")
      let mx ← getInt (jGet es "max_ntx")
      let bc ← getEnum Blockchain.ofValue (jGet es "blockchain")
      let st ← getEnum ServiceType.ofValue (jGet es "service_type")
      let pj ← getField (jGet es "params")
      let ps ← parseJobParams pj
      let cj ← getField (jGet es "constraints")
      let cs ← parseJobConstraints cj
      Except.ok (JobRequest.mk au mx bc st ps cs)
  | _ => Except.error "expected an object"

/-- Parsing a JSON value into `JobConfig`: plain fields are modelled
from the spec (the serialization layer is external to the source),
while the oracle-message field runs the source's `validate_oracle`
`mode="before"` field validator on the raw value. -/
def parseJobConfig (j : Json) : Except String JobConfig :=
  match j with
  | Json.obj es => do
      let addr ← getStr (jGet es "compute_provider_addr")
      let price ← getNum (jGet es "estimated_price")
      let om ←
        match jGet es "oracle_message" with
        | some (Json.str s) => validate_oracle (OracleInput.str s)
        | some (Json.arr bs) =>
            match getBytes bs with
            | Except.ok b => validate_oracle (OracleInput.bytes b)
            | Except.error e => Except.error e
        | some j2 => validate_oracle (OracleInput.other (jsonTypeName j2))
        | none => Except.error "missing field"
      let sig ← getStr (jGet es "signature")
      Except.ok (JobConfig.mk addr price om sig)
  | _ => Except.error "expected an object"

theorem exceptBind_ok {ε α β : Type} (a : α) (f : α → Except ε β) :
    (Except.ok a : Except ε α) >>= f = f a := rfl

theorem exceptBind_error {ε α β : Type} (e : ε) (f : α → Except ε β) :
    (Except.error e : Except ε α) >>= f = Except.error e := rfl

theorem getStrList_map (l : List String) :
    getStrList (l.map Json.str) = Except.ok l := by
  induction l with
  | nil => rfl
  | cons s l ih =>
      simp only [List.map_cons, getStrList, ih]

theorem getBytes_map (b : List Nat) :
    getBytes (b.map fun (n : Nat) => Json.int (n : Int)) = Except.ok b := by
  induction b with
  | nil => rfl
  | cons n b ih =>
      have hc : ((n : Int)).toNat' = some n := rfl
      simp only [List.map_cons, getBytes, hc, ih]

theorem parse_dump_params (p : JobParams) :
    parseJobParams (dumpJobParams p) = Except.ok p := by
  obtain ⟨mt, im, mu, pk⟩ := p
  cases mt <;> cases im <;>
    simp [parseJobParams, dumpJobParams, jGet, getEnum, getStr, getArr, getStrList_map,
      exceptBind_ok, MachineType.value, MachineType.ofValue, ImageId.value, ImageId.ofValue]

theorem parse_dump_constraints (c : JobConstraints) :
    parseJobConstraints (dumpJobConstraints c) = Except.ok c := by
  obtain ⟨cpu, ram, vram, pow, cx, tm⟩ := c
  cases cx <;>
    simp [parseJobConstraints, dumpJobConstraints, jGet, getEnum, getStr, getInt,
      exceptBind_ok, Complexity.value, Complexity.ofValue]

/-- C10: serializing a `JobRequest` or a `JobConfig` and then parsing
the serialized form yields a value equal field-for-field to the
original. -/
theorem C10_serialize_parse_round_trip (r : JobRequest) (c : JobConfig) :
    parseJobRequest (dumpJobRequest r) = Except.ok r
      ∧ parseJobConfig (dumpJobConfig c) = Except.ok c := by
  constructor
  · obtain ⟨au, mx, bc, st, ps, cs⟩ := r
    cases bc <;> cases st <;>
      simp [parseJobRequest, dumpJobRequest, jGet, getEnum, getStr, getInt, getField,
        exceptBind_ok, Blockchain.value, Blockchain.ofValue, ServiceType.value,
        ServiceType.ofValue, parse_dump_params, parse_dump_constraints]
  · obtain ⟨addr, price, ⟨om⟩, sig⟩ := c
    simp [parseJobConfig, dumpJobConfig, jGet, getStr, getNum, getBytes_map,
      exceptBind_ok, validate_oracle]

/-! ## The match request (`NuNetAdapter.request_service`) -/

/-- The HTTP response to the match request: its status code, its raw
text, and the JSON value its body parses to. -/
structure HttpResponse where
  status_code : Nat
  text : String
  body : Json

/-- `requests.codes.ok` is exactly 200. -/
def requests_codes_ok : Nat := 200

/-- The errors `request_service` can raise: the `HTTPError` carrying
the raw response text (the spec's MatchError), or a validation error
from parsing the body (the spec's ParseError). -/
inductive ReqError where
  | httpError (text : String)
  | validationError (msg : String)
deriving DecidableEq, Repr

/-- Embeds `NuNetAdapter.request_service` (lines 99-125): posts the
serialized job request; if `status_code != requests.codes.ok` raises
`HTTPError(job_info.text)`, otherwise validates the JSON body into a
`JobConfig`. -/
def request_service (resp : HttpResponse) : Except ReqError JobConfig :=
  if resp.status_code ≠ requests_codes_ok then
    Except.error (ReqError.httpError resp.text)
  else
    match parseJobConfig resp.body with
    | Except.ok c => Except.ok c
    | Except.error e => Except.error (ReqError.validationError e)

/-- A well-formed match-response body (the spec's own scenario). -/
def sampleConfigJson : Json :=
  Json.obj [("compute_provider_addr", Json.str "addrProv"),
            ("estimated_price", Json.num (1 / 2)),
            ("oracle_message", Json.str "abc"),
            ("signature", Json.str "ab12")]

/-- C4 counterexample: a response with status code 201 — a 200-class
success whose body parses into a valid `JobConfig` — is nevertheless
rejected with the raw-text error, refuting the claim that any
200-class response is treated as success. -/
theorem C4_counterexample_201_rejected :
    200 ≤ 201 ∧ 201 < 300
      ∧ parseJobConfig sampleConfigJson
        = Except.ok (JobConfig.mk "addrProv" (1 / 2) (ByteStr.mk (strUtf8 "abc")) "ab12")
      ∧ request_service (HttpResponse.mk 201 "raw body" sampleConfigJson)
        = Except.error (ReqError.httpError "raw body") := by
  exact ⟨by norm_num, by norm_num, rfl, rfl⟩

/-- C4 (amended): `request_service` treats exactly status code 200 as
success and parses its body into a `JobConfig`; any other status code
(including other 200-class codes such as 201) fails with an error
carrying the raw response text verbatim. -/
theorem C4_amended_only_200_is_success (resp : HttpResponse) :
    (resp.status_code ≠ 200 →
        request_service resp = Except.error (ReqError.httpError resp.text))
      ∧ (resp.status_code = 200 →
          ∀ c : JobConfig, parseJobConfig resp.body = Except.ok c →
            request_service resp = Except.ok c)
      ∧ (resp.status_code = 200 →
          ∀ e, parseJobConfig resp.body = Except.error e →
            request_service resp = Except.error (ReqError.validationError e)) := by
  refine ⟨fun h => ?_, fun h c hc => ?_, fun h e he => ?_⟩
  · simp [request_service, requests_codes_ok, h]
  · simp [request_service, requests_codes_ok, h, hc]
  · simp [request_service, requests_codes_ok, h, he]

/-- C4 amended witness at concrete inputs: a 404 carries the raw text,
and a 200 parses the body. -/
theorem C4_amended_witness :
    request_service (HttpResponse.mk 404 "not found" Json.null)
        = Except.error (ReqError.httpError "not found")
      ∧ request_service (HttpResponse.mk 200 "" sampleConfigJson)
        = Except.ok (JobConfig.mk "addrProv" (1 / 2) (ByteStr.mk (strUtf8 "abc")) "ab12") :=
  ⟨(C4_amended_only_200_is_success (HttpResponse.mk 404 "not found" Json.null)).1
      (by decide),
   (C4_amended_only_200_is_success (HttpResponse.mk 200 "" sampleConfigJson)).2.1
      rfl (JobConfig.mk "addrProv" (1 / 2) (ByteStr.mk (strUtf8 "abc")) "ab12") rfl⟩

end NuNet
